import Mathlib

/-!
Verification of the payment-gated conversion workflow of the
micro-servicios repository.  The React frontend (Upload, Pay,
PayPalReturn, Dashboard, AuthContext, Quiz, Wizard) is embedded directly
from the JavaScript sources.  The FastAPI backend components (Upload
Store, Payment Gateway Adapter, Entitlement Ledger, Conversion
Orchestrator) are not part of the shipped sources; they are modelled
from the specification's component contracts.
-/

/-! ## Entitlement Ledger -/

/-- Modelled from the spec: plan tiers of an Entitlement
(backend subscription model absent from the sources). -/
inductive PlanTier where
  | free
  | basic
  | standard
  | premium
deriving DecidableEq, Repr

/-- Modelled from the spec: conversions granted per plan tier
(200 / 400 / 600 per the subscription plans table). -/
def planCredits : PlanTier → Nat
  | PlanTier.free => 0
  | PlanTier.basic => 200
  | PlanTier.standard => 400
  | PlanTier.premium => 600

/-- Modelled from the spec: the Entitlement row of the ledger
(backend Subscription model absent from the sources). -/
structure Entitlement where
  accountId : Nat
  planTier : PlanTier
  creditsTotal : Nat
  creditsUsed : Nat
  periodStart : Nat
  periodEnd : Nat
  externalSubscriptionRef : String
deriving DecidableEq, Repr

/-- Modelled from the spec: an entitlement is active iff now lies in
the half-open period and creditsUsed is strictly below creditsTotal. -/
def Entitlement.isActive (e : Entitlement) (now : Nat) : Bool :=
  decide (e.periodStart ≤ now) && decide (now < e.periodEnd) &&
    decide (e.creditsUsed < e.creditsTotal)

/-- Modelled from the spec: errors raised by the Entitlement Ledger and
the Payment Gateway Adapter. -/
inductive LedgerError where
  | NoCreditsRemaining
  | SubscriptionNotActive
deriving DecidableEq, Repr

/-- Modelled from the spec: hasRemainingCredits holds when an active
entitlement exists and creditsUsed is strictly below creditsTotal. -/
def hasRemainingCredits (ent : Option Entitlement) (now : Nat) : Bool :=
  match ent with
  | some e => e.isActive now && decide (e.creditsUsed < e.creditsTotal)
  | none => false

/-- Modelled from the spec: consumeCredit checks hasRemainingCredits at
consumption time (the check-then-act is serialized per account) and on
success increments creditsUsed, otherwise fails with
NoCreditsRemaining. -/
def consumeCredit (ent : Option Entitlement) (now : Nat) :
    Except LedgerError (Option Entitlement) :=
  if hasRemainingCredits ent now then
    Except.ok (ent.map fun e => { e with creditsUsed := e.creditsUsed + 1 })
  else
    Except.error LedgerError.NoCreditsRemaining

/-- A serialized sequence of n consumeCredit calls against one account:
returns how many calls succeeded together with the final ledger row. -/
def consumeMany (ent : Option Entitlement) (now : Nat) :
    Nat → Nat × Option Entitlement
  | 0 => (0, ent)
  | Nat.succ n =>
      match consumeCredit ent now with
      | Except.ok ent' =>
          let r := consumeMany ent' now n
          (r.1 + 1, r.2)
      | Except.error _ => consumeMany ent now n

theorem consumeMany_of_noCredits (ent : Option Entitlement) (now : Nat)
    (h : hasRemainingCredits ent now = false) :
    ∀ n, consumeMany ent now n = (0, ent) := by
  intro n
  induction n with
  | zero => rfl
  | succ n ih =>
      simp only [consumeMany, consumeCredit, h]
      simpa using ih

theorem consumeCredit_exhausts (e : Entitlement) (now : Nat)
    (h : e.creditsTotal = e.creditsUsed + 1) (hact : e.isActive now = true) :
    consumeCredit (some e) now =
      Except.ok (some { e with creditsUsed := e.creditsUsed + 1 }) ∧
    hasRemainingCredits (some { e with creditsUsed := e.creditsUsed + 1 }) now
      = false := by
  constructor
  · have hrem : hasRemainingCredits (some e) now = true := by
      simp only [hasRemainingCredits, hact, Bool.true_and]
      have : e.creditsUsed < e.creditsTotal := by omega
      simpa using this
    simp [consumeCredit, hrem]
  · simp only [hasRemainingCredits, Entitlement.isActive]
    have : ¬ (e.creditsUsed + 1 < e.creditsTotal) := by omega
    simp [this]

/-- Claim C1: at all times 0 ≤ creditsUsed ≤ creditsTotal holds on an
entitlement produced by consumeCredit; consumeCredit fails with
NoCreditsRemaining exactly when hasRemainingCredits is false at
consumption time; and any serialized sequence of n + 1 consumeCredit
calls against an active entitlement with exactly one remaining credit
yields exactly one success, with creditsUsed never exceeding
creditsTotal. -/
theorem c1_credits_invariant :
    (∀ (ent : Option Entitlement) (now : Nat),
       hasRemainingCredits ent now = false →
       consumeCredit ent now = Except.error LedgerError.NoCreditsRemaining) ∧
    (∀ (e e' : Entitlement) (now : Nat),
       consumeCredit (some e) now = Except.ok (some e') →
       e'.creditsUsed ≤ e'.creditsTotal) ∧
    (∀ (e : Entitlement) (now n : Nat),
       e.isActive now = true → e.creditsTotal = e.creditsUsed + 1 →
       (consumeMany (some e) now (n + 1)).1 = 1 ∧
       ∀ e'' : Entitlement,
         (consumeMany (some e) now (n + 1)).2 = some e'' →
         e''.creditsUsed ≤ e''.creditsTotal) := by
  refine ⟨?_, ?_, ?_⟩
  · intro ent now h
    simp [consumeCredit, h]
  · intro e e' now h
    by_cases hrem : hasRemainingCredits (some e) now = true
    · have hlt : e.creditsUsed < e.creditsTotal := by
        simp only [hasRemainingCredits, Bool.and_eq_true, decide_eq_true_eq]
          at hrem
        exact hrem.2
      simp only [consumeCredit, hrem, if_true, Option.map_some'] at h
      have he' : e' = { e with creditsUsed := e.creditsUsed + 1 } := by
        injection h with h1
        injection h1 with h2
        exact h2.symm
      subst he'
      simpa using hlt
    · have hfalse : hasRemainingCredits (some e) now = false := by
        simpa using hrem
      simp [consumeCredit, hfalse] at h
  · intro e now n hact htot
    obtain ⟨hok, hdone⟩ := consumeCredit_exhausts e now htot hact
    have hrest := consumeMany_of_noCredits
      (some { e with creditsUsed := e.creditsUsed + 1 }) now hdone n
    constructor
    · simp [consumeMany, hok, hrest]
    · intro e'' h2
      simp only [consumeMany, hok, hrest] at h2
      have : e'' = { e with creditsUsed := e.creditsUsed + 1 } := by
        injection h2 with h3
        exact h3.symm
      subst this
      show e.creditsUsed + 1 ≤ e.creditsTotal
      omega

/-- Witness for C1: an active entitlement with 1 remaining credit,
hammered by 50 serialized consumeCredit calls, yields exactly 1
success. -/
theorem c1_credits_invariant_witness :
    (consumeMany
      (some ⟨1, PlanTier.basic, 200, 199, 0, 100, "sub-1"⟩) 5 50).1 = 1 :=
  (c1_credits_invariant.2.2 ⟨1, PlanTier.basic, 200, 199, 0, 100, "sub-1"⟩
    5 49 (by decide) (by decide)).1

/-! ## Upload Store -/

/-- Modelled from the spec: the UploadRecord held by the Upload Store
(backend upload handling absent from the sources). -/
structure UploadRecord where
  handle : Nat
  rawBytes : List Nat
  receivedAt : Nat
  expiresAt : Nat
deriving DecidableEq, Repr

/-- Modelled from the spec: errors raised by the Upload Store. -/
inductive StoreError where
  | NotFound
  | UnsupportedFormat
deriving DecidableEq, Repr

/-- The Upload Store state: the records not yet consumed or purged. -/
def UploadStore := List UploadRecord

instance : DecidableEq UploadStore := by
  unfold UploadStore
  infer_instance

/-- Modelled from the spec: take reads a handle exactly once.  It fails
with NotFound when the handle is unknown or expired; on success it
returns the bytes and invalidates the record by removing it from the
store. -/
def take (st : UploadStore) (h : Nat) (now : Nat) :
    Except StoreError (List Nat × UploadStore) :=
  match List.find? (fun r => r.handle == h) st with
  | none => Except.error StoreError.NotFound
  | some r =>
      if r.expiresAt ≤ now then Except.error StoreError.NotFound
      else Except.ok (r.rawBytes, List.filter (fun r => r.handle != h) st)

theorem find_filter_ne_none (st : List UploadRecord) (h : Nat) :
    List.find? (fun r => r.handle == h)
      (List.filter (fun r => r.handle != h) st) = none := by
  induction st with
  | nil => rfl
  | cons r rest ih =>
      by_cases hr : r.handle = h
      · simp [List.filter, hr, ih]
      · have h1 : (r.handle != h) = true := by simp [hr]
        have h2 : (r.handle == h) = false := by simp [hr]
        simp [List.filter, h1, List.find?, h2, ih]

theorem take_after_take (st st' : UploadStore) (h now now' : Nat)
    (b : List Nat) (hfirst : take st h now = Except.ok (b, st')) :
    take st' h now' = Except.error StoreError.NotFound := by
  unfold take at hfirst ⊢
  cases hfind : List.find? (fun r => r.handle == h) st with
  | none => simp [hfind] at hfirst
  | some r =>
      simp only [hfind] at hfirst
      by_cases hexp : r.expiresAt ≤ now
      · simp [hexp] at hfirst
      · simp only [hexp, if_false] at hfirst
        have hst' : st' = List.filter (fun r => r.handle != h) st := by
          injection hfirst with h1
          exact (congrArg Prod.snd h1).symm
        rw [hst', find_filter_ne_none]

/-- Claim C3: an UploadRecord handle is single-use.  take fails with
NotFound on an unknown handle and on an expired record; and after a
first successful take of a handle, every later take of the same handle
fails with NotFound at any later time, whatever happened downstream. -/
theorem c3_take_single_use :
    (∀ (st : UploadStore) (h now : Nat),
       List.find? (fun r => r.handle == h) st = none →
       take st h now = Except.error StoreError.NotFound) ∧
    (∀ (st : UploadStore) (r : UploadRecord) (h now : Nat),
       List.find? (fun r => r.handle == h) st = some r →
       r.expiresAt ≤ now →
       take st h now = Except.error StoreError.NotFound) ∧
    (∀ (st st' : UploadStore) (h now now' : Nat) (b : List Nat),
       take st h now = Except.ok (b, st') →
       take st' h now' = Except.error StoreError.NotFound) := by
  refine ⟨?_, ?_, ?_⟩
  · intro st h now hfind
    simp [take, hfind]
  · intro st r h now hfind hexp
    simp [take, hfind, hexp]
  · intro st st' h now now' b hfirst
    exact take_after_take st st' h now now' b hfirst

/-- Witness for C3: a concrete store where the first take succeeds and
the second take of the same handle fails with NotFound. -/
theorem c3_take_single_use_witness :
    take [⟨7, [1, 2], 0, 100⟩] 7 5 = Except.ok ([1, 2], []) ∧
    take [] 7 6 = Except.error StoreError.NotFound :=
  ⟨rfl, c3_take_single_use.2.2 [⟨7, [1, 2], 0, 100⟩] [] 7 5 6 [1, 2] rfl⟩

/-! ## Payment Gateway Adapter -/

/-- Modelled from the spec: transaction status of the audit trail. -/
inductive TxStatus where
  | created
  | captured
  | failed
deriving DecidableEq, Repr

/-- Modelled from the spec: a Transaction row of the append-only audit
trail (backend Payment model absent from the sources). -/
structure Transaction where
  transactionId : Nat
  externalRef : String
  amount : Nat
  currency : String
  status : TxStatus
deriving DecidableEq, Repr

/-- Modelled from the spec: errors raised by the Payment Gateway
Adapter. -/
inductive PayError where
  | PaymentNotApproved
  | PaymentGatewayError
  | SubscriptionNotActive
deriving DecidableEq, Repr

/-- Marks the transaction matching orderRef as captured, leaving every
other row untouched. -/
def markCaptured (txs : List Transaction) (orderRef : String) :
    List Transaction :=
  txs.map fun u =>
    if u.externalRef == orderRef then { u with status := TxStatus.captured }
    else u

/-- Modelled from the spec: captureOrder fails with PaymentNotApproved
when the external processor reports the order not yet approved, with
PaymentGatewayError when no matching order exists, and on success
updates the matching Transaction to captured.  A repeated call on an
already captured reference succeeds without touching the ledger, making
capture idempotent. -/
def captureOrder (txs : List Transaction) (orderRef : String)
    (approved : Bool) : Except PayError (List Transaction) :=
  match List.find? (fun t => t.externalRef == orderRef) txs with
  | none => Except.error PayError.PaymentGatewayError
  | some t =>
      match t.status with
      | TxStatus.captured => Except.ok txs
      | _ =>
          if approved then Except.ok (markCaptured txs orderRef)
          else Except.error PayError.PaymentNotApproved

/-- Number of captured transaction rows carrying a given external
reference. -/
def capturedCount (txs : List Transaction) (orderRef : String) : Nat :=
  (txs.filter fun t =>
    t.externalRef == orderRef && t.status == TxStatus.captured).length

theorem find_markCaptured (txs : List Transaction) (orderRef : String)
    (t : Transaction)
    (h : List.find? (fun t => t.externalRef == orderRef) txs = some t) :
    List.find? (fun t => t.externalRef == orderRef)
        (markCaptured txs orderRef) =
      some { t with status := TxStatus.captured } := by
  induction txs with
  | nil => simp [List.find?] at h
  | cons u rest ih =>
      by_cases hu : u.externalRef = orderRef
      · have hb : (u.externalRef == orderRef) = true := by simp [hu]
        simp only [List.find?, hb] at h
        injection h with h1
        subst h1
        simp [markCaptured, List.find?, hb]
      · have hb : (u.externalRef == orderRef) = false := by simp [hu]
        simp only [List.find?, hb] at h
        have := ih h
        simpa [markCaptured, List.find?, hb] using this

theorem captureOrder_after_success (txs txs' : List Transaction)
    (orderRef : String) (approved approved' : Bool)
    (h : captureOrder txs orderRef approved = Except.ok txs') :
    captureOrder txs' orderRef approved' = Except.ok txs' := by
  unfold captureOrder at h ⊢
  cases hfind : List.find? (fun t => t.externalRef == orderRef) txs with
  | none => simp [hfind] at h
  | some t =>
      simp only [hfind] at h
      cases hst : t.status with
      | captured =>
          simp only [hst] at h
          injection h with h1
          subst h1
          simp [hfind, hst]
      | created =>
          simp only [hst] at h
          by_cases hap : approved = true
          · subst hap
            simp only [if_true] at h
            injection h with h1
            subst h1
            rw [find_markCaptured txs orderRef t hfind]
          · simp [hap] at h
      | failed =>
          simp only [hst] at h
          by_cases hap : approved = true
          · subst hap
            simp only [if_true] at h
            injection h with h1
            subst h1
            rw [find_markCaptured txs orderRef t hfind]
          · simp [hap] at h

/-- Modelled from the spec: confirmSubscription fails with
SubscriptionNotActive when the external processor has not marked the
subscription active; when the account's entitlement already carries the
same external reference it returns it unchanged (idempotent, no second
reset); otherwise it (re)creates the Entitlement with creditsUsed = 0
and a one-month period starting at confirmation time. -/
def oneMonth : Nat := 30 * 24 * 60 * 60

/-- Modelled from the spec: confirmSubscription of the Payment Gateway
Adapter (backend subscription approval absent from the sources). -/
def confirmSubscription (accountId : Nat) (ent : Option Entitlement)
    (subscriptionRef : String) (planTier : PlanTier) (active : Bool)
    (now : Nat) : Except PayError (Option Entitlement) :=
  if active then
    match ent with
    | some e =>
        if e.externalSubscriptionRef == subscriptionRef then
          Except.ok (some e)
        else
          Except.ok (some ⟨accountId, planTier, planCredits planTier, 0,
            now, now + oneMonth, subscriptionRef⟩)
    | none =>
        Except.ok (some ⟨accountId, planTier, planCredits planTier, 0,
          now, now + oneMonth, subscriptionRef⟩)
  else Except.error PayError.SubscriptionNotActive

/-- The ledger row after a confirmSubscription call: unchanged when the
call failed. -/
def applyConfirm (accountId : Nat) (ent : Option Entitlement)
    (subscriptionRef : String) (planTier : PlanTier) (active : Bool)
    (now : Nat) : Option Entitlement :=
  match confirmSubscription accountId ent subscriptionRef planTier
      active now with
  | Except.ok ent' => ent'
  | Except.error _ => ent

/-- Claim C4: captureOrder is idempotent — after a first successful
capture of an orderRef, a second captureOrder with the same orderRef
returns the ledger unchanged, so the count of captured rows for that
reference does not grow; and a repeated confirmSubscription carrying
the external reference already on the account's entitlement performs no
second Entitlement reset. -/
theorem c4_capture_idempotent :
    (∀ (txs txs' : List Transaction) (orderRef : String)
       (approved approved' : Bool),
       captureOrder txs orderRef approved = Except.ok txs' →
       captureOrder txs' orderRef approved' = Except.ok txs' ∧
       ∀ txs'', captureOrder txs' orderRef approved' = Except.ok txs'' →
         capturedCount txs'' orderRef = capturedCount txs' orderRef) ∧
    (∀ (accountId : Nat) (e : Entitlement) (planTier : PlanTier)
       (now : Nat),
       confirmSubscription accountId (some e) e.externalSubscriptionRef
         planTier true now = Except.ok (some e)) := by
  constructor
  · intro txs txs' orderRef approved approved' h
    have hsecond := captureOrder_after_success txs txs' orderRef
      approved approved' h
    refine ⟨hsecond, ?_⟩
    intro txs'' h2
    rw [hsecond] at h2
    injection h2 with h3
    rw [h3]
  · intro accountId e planTier now
    simp [confirmSubscription]

/-- Witness for C4: capturing the same order twice leaves exactly one
captured row, and re-confirming a subscription returns the entitlement
unchanged. -/
theorem c4_capture_idempotent_witness :
    captureOrder [⟨1, "ord-1", 20, "MXN", TxStatus.captured⟩] "ord-1" true =
      Except.ok [⟨1, "ord-1", 20, "MXN", TxStatus.captured⟩] :=
  (c4_capture_idempotent.1 [⟨1, "ord-1", 20, "MXN", TxStatus.created⟩]
    [⟨1, "ord-1", 20, "MXN", TxStatus.captured⟩] "ord-1" true true rfl).1

/-- Claim C5: confirmSubscription fails with SubscriptionNotActive when
the external processor has not marked the subscription active, and the
account's entitlement row is then neither created nor mutated; on a
fresh success it (re)creates the Entitlement with creditsUsed = 0 and a
one-month period starting at confirmation time. -/
theorem c5_confirm_subscription :
    (∀ (accountId : Nat) (ent : Option Entitlement)
       (subscriptionRef : String) (planTier : PlanTier) (now : Nat),
       confirmSubscription accountId ent subscriptionRef planTier
         false now = Except.error PayError.SubscriptionNotActive ∧
       applyConfirm accountId ent subscriptionRef planTier false now
         = ent) ∧
    (∀ (accountId : Nat) (subscriptionRef : String) (planTier : PlanTier)
       (now : Nat) (ent : Option Entitlement),
       (∀ e, ent = some e → e.externalSubscriptionRef ≠ subscriptionRef) →
       confirmSubscription accountId ent subscriptionRef planTier true now
         = Except.ok (some ⟨accountId, planTier, planCredits planTier, 0,
             now, now + oneMonth, subscriptionRef⟩)) := by
  constructor
  · intro accountId ent subscriptionRef planTier now
    constructor
    · simp [confirmSubscription]
    · simp [applyConfirm, confirmSubscription]
  · intro accountId subscriptionRef planTier now ent hfresh
    cases ent with
    | none => simp [confirmSubscription]
    | some e =>
        have hne := hfresh e rfl
        simp [confirmSubscription, hne]

/-- Witness for C5: confirming a not-yet-active subscription errors and
leaves the ledger row unchanged, and a fresh active confirmation resets
credits to zero with a one-month period. -/
theorem c5_confirm_subscription_witness :
    (confirmSubscription 1 none "sub-9" PlanTier.basic false 50
       = Except.error PayError.SubscriptionNotActive ∧
     applyConfirm 1 none "sub-9" PlanTier.basic false 50 = none) ∧
    confirmSubscription 1 none "sub-9" PlanTier.basic true 50
       = Except.ok (some ⟨1, PlanTier.basic, 200, 0, 50, 50 + oneMonth,
           "sub-9"⟩) :=
  ⟨c5_confirm_subscription.1 1 none "sub-9" PlanTier.basic 50,
   c5_confirm_subscription.2 1 "sub-9" PlanTier.basic 50 none
     (by intro e h; cases h)⟩

/-! ## Conversion Orchestrator -/

/-- Modelled from the spec: terminal failure reasons of the workflow
state machine. -/
inductive FailReason where
  | NotPaid
  | GatewayError
  | NoCredits
  | UploadExpired
  | ConversionError
deriving DecidableEq, Repr

/-- Modelled from the spec: states of the Conversion Orchestrator. -/
inductive OrchState where
  | Uploaded
  | PaymentPending
  | PaymentVerified
  | Converted
  | Failed (r : FailReason)
deriving DecidableEq, Repr

/-- Modelled from the spec: the append-only ConversionRecord row, one
per attempt, success or failure. -/
structure ConversionRecord where
  conversionId : Nat
  accountId : Option Nat
  uploadHandle : Nat
  transactionId : Option Nat
  succeeded : Bool
deriving DecidableEq, Repr

/-- The cross-request state shared by the workflow components. -/
structure World where
  uploads : UploadStore
  transactions : List Transaction
  entitlement : Option Entitlement
  records : List ConversionRecord
deriving DecidableEq

/-- Modelled from the spec: HTTP class reported for each terminal
failure reason (402 for payment and credit refusals, 410 for a spent
handle, 502 for gateway errors, 500 for a failed artifact step). -/
def failHttp : FailReason → Nat
  | FailReason.NotPaid => 402
  | FailReason.GatewayError => 502
  | FailReason.NoCredits => 402
  | FailReason.UploadExpired => 410
  | FailReason.ConversionError => 500

/-- Modelled from the spec: whether a state of the workflow state
machine is terminal. -/
def OrchState.isTerminal : OrchState → Bool
  | OrchState.Converted => true
  | OrchState.Failed _ => true
  | _ => false

/-- Modelled from the spec: the transition relation of the workflow
state machine of section 4.4 — failure may occur at any transition out
of a non-terminal state, and there is no transition out of a terminal
state (no automatic retry). -/
inductive OrchTransition : OrchState → OrchState → Prop where
  | offerPay : OrchTransition OrchState.Uploaded OrchState.PaymentPending
  | payVerified :
      OrchTransition OrchState.PaymentPending OrchState.PaymentVerified
  | entitlementVerified :
      OrchTransition OrchState.Uploaded OrchState.PaymentVerified
  | converted :
      OrchTransition OrchState.PaymentVerified OrchState.Converted
  | failAny (s : OrchState) (r : FailReason)
      (h : s.isTerminal = false) :
      OrchTransition s (OrchState.Failed r)

/-- Modelled from the spec: the pay-per-use run of the Conversion
Orchestrator — capture the order, take the upload exactly once, run the
artifact step, and append one ConversionRecord whenever the artifact
step was reached, succeeded flag matching its outcome. -/
def runPayPerUse (w : World) (orderRef : String) (handle : Nat)
    (approved : Bool) (artifactOk : Bool) (now : Nat) :
    OrchState × World :=
  match captureOrder w.transactions orderRef approved with
  | Except.error PayError.PaymentNotApproved =>
      (OrchState.Failed FailReason.NotPaid, w)
  | Except.error _ => (OrchState.Failed FailReason.GatewayError, w)
  | Except.ok txs' =>
      let w1 : World := { w with transactions := txs' }
      match take w1.uploads handle now with
      | Except.error _ => (OrchState.Failed FailReason.UploadExpired, w1)
      | Except.ok (_, ups') =>
          let w2 : World := { w1 with uploads := ups' }
          if artifactOk then
            (OrchState.Converted,
             { w2 with records := w2.records ++
                 [⟨w2.records.length, none, handle, none, true⟩] })
          else
            (OrchState.Failed FailReason.ConversionError,
             { w2 with records := w2.records ++
                 [⟨w2.records.length, none, handle, none, false⟩] })

/-- Modelled from the spec: the use-entitlement run of the Conversion
Orchestrator — check credits, consume one, take the upload exactly
once, run the artifact step, and append one ConversionRecord whenever
the artifact step was reached. -/
def runUseEntitlement (w : World) (accountId : Nat) (handle : Nat)
    (artifactOk : Bool) (now : Nat) : OrchState × World :=
  match consumeCredit w.entitlement now with
  | Except.error _ => (OrchState.Failed FailReason.NoCredits, w)
  | Except.ok ent' =>
      let w1 : World := { w with entitlement := ent' }
      match take w1.uploads handle now with
      | Except.error _ => (OrchState.Failed FailReason.UploadExpired, w1)
      | Except.ok (_, ups') =>
          let w2 : World := { w1 with uploads := ups' }
          if artifactOk then
            (OrchState.Converted,
             { w2 with records := w2.records ++
                 [⟨w2.records.length, some accountId, handle, none, true⟩] })
          else
            (OrchState.Failed FailReason.ConversionError,
             { w2 with records := w2.records ++
                 [⟨w2.records.length, some accountId, handle, none,
                   false⟩] })

/-- Claim C2: whenever the orchestrator reaches the artifact-generation
step (payment captured, upload taken), a failing artifact step ends the
attempt in Failed ConversionError while still appending a
ConversionRecord with succeeded = false, and a succeeding one ends in
Converted appending a ConversionRecord with succeeded = true — so every
attempt that reached the step appends exactly one record, on the
pay-per-use path and on the use-entitlement path alike. -/
theorem c2_failed_attempt_recorded :
    (∀ (w : World) (orderRef : String) (handle : Nat)
       (approved artifactOk : Bool) (now : Nat)
       (txs' : List Transaction) (b : List Nat) (ups' : UploadStore),
       captureOrder w.transactions orderRef approved = Except.ok txs' →
       take w.uploads handle now = Except.ok (b, ups') →
       (runPayPerUse w orderRef handle approved artifactOk now).1 =
         (if artifactOk then OrchState.Converted
          else OrchState.Failed FailReason.ConversionError) ∧
       (runPayPerUse w orderRef handle approved artifactOk now).2.records
         = w.records ++
             [⟨w.records.length, none, handle, none, artifactOk⟩]) ∧
    (∀ (w : World) (accountId handle : Nat) (artifactOk : Bool)
       (now : Nat) (ent' : Option Entitlement) (b : List Nat)
       (ups' : UploadStore),
       consumeCredit w.entitlement now = Except.ok ent' →
       take w.uploads handle now = Except.ok (b, ups') →
       (runUseEntitlement w accountId handle artifactOk now).1 =
         (if artifactOk then OrchState.Converted
          else OrchState.Failed FailReason.ConversionError) ∧
       (runUseEntitlement w accountId handle artifactOk now).2.records
         = w.records ++
             [⟨w.records.length, some accountId, handle, none,
               artifactOk⟩]) := by
  constructor
  · intro w orderRef handle approved artifactOk now txs' b ups' hcap htake
    unfold runPayPerUse
    rw [hcap]
    simp only [htake]
    cases artifactOk <;> simp
  · intro w accountId handle artifactOk now ent' b ups' hcons htake
    unfold runUseEntitlement
    rw [hcons]
    simp only [htake]
    cases artifactOk <;> simp

/-- Witness for C2: a concrete paid attempt whose artifact step fails
still appends the one failure record. -/
theorem c2_failed_attempt_recorded_witness :
    (runPayPerUse
        ⟨[⟨7, [1], 0, 100⟩], [⟨1, "ord-1", 20, "MXN", TxStatus.created⟩],
          none, []⟩ "ord-1" 7 true false 5).1 =
      OrchState.Failed FailReason.ConversionError ∧
    (runPayPerUse
        ⟨[⟨7, [1], 0, 100⟩], [⟨1, "ord-1", 20, "MXN", TxStatus.created⟩],
          none, []⟩ "ord-1" 7 true false 5).2.records =
      [⟨0, none, 7, none, false⟩] := by
  have h := c2_failed_attempt_recorded.1
    ⟨[⟨7, [1], 0, 100⟩], [⟨1, "ord-1", 20, "MXN", TxStatus.created⟩],
      none, []⟩ "ord-1" 7 true false 5
    [⟨1, "ord-1", 20, "MXN", TxStatus.captured⟩] [1] [] rfl rfl
  simpa using h

theorem runPayPerUse_world_after_failed_conversion (w : World)
    (orderRef : String) (handle : Nat) (approved : Bool) (now : Nat)
    (txs' : List Transaction) (b : List Nat) (ups' : UploadStore)
    (hcap : captureOrder w.transactions orderRef approved
      = Except.ok txs')
    (htake : take w.uploads handle now = Except.ok (b, ups')) :
    (runPayPerUse w orderRef handle approved false now).2 =
      ⟨ups', txs', w.entitlement,
       w.records ++ [⟨w.records.length, none, handle, none, false⟩]⟩ := by
  unfold runPayPerUse
  rw [hcap]
  simp only [htake]
  rfl

/-- Claim C7: on the pay-per-use path a not-yet-approved order ends the
run in Failed NotPaid, the 402-class PaymentNotApproved refusal, with
the world untouched; every Failed state of the workflow state machine
is terminal, with no outgoing transition (no automatic retry); and a
captured payment whose conversion failed is never silently retried
against the same artifact step — a second run with the same upload
handle ends in Failed UploadExpired, never in Converted. -/
theorem c7_failed_is_terminal :
    (∀ (w : World) (orderRef : String) (handle : Nat)
       (artifactOk : Bool) (now : Nat),
       captureOrder w.transactions orderRef false
           = Except.error PayError.PaymentNotApproved →
       runPayPerUse w orderRef handle false artifactOk now
           = (OrchState.Failed FailReason.NotPaid, w) ∧
       failHttp FailReason.NotPaid = 402) ∧
    (∀ (r : FailReason) (s : OrchState),
       ¬ OrchTransition (OrchState.Failed r) s) ∧
    (∀ (w : World) (orderRef : String) (handle : Nat)
       (approved approved' artifactOk' : Bool) (now now' : Nat)
       (txs' : List Transaction) (b : List Nat) (ups' : UploadStore),
       captureOrder w.transactions orderRef approved = Except.ok txs' →
       take w.uploads handle now = Except.ok (b, ups') →
       (runPayPerUse (runPayPerUse w orderRef handle approved false now).2
           orderRef handle approved' artifactOk' now').1
         = OrchState.Failed FailReason.UploadExpired) := by
  refine ⟨?_, ?_, ?_⟩
  · intro w orderRef handle artifactOk now hcap
    constructor
    · unfold runPayPerUse
      rw [hcap]
    · rfl
  · intro r s h
    cases h with
    | failAny _ r' hterm => simp [OrchState.isTerminal] at hterm
  · intro w orderRef handle approved approved' artifactOk' now now'
      txs' b ups' hcap htake
    rw [runPayPerUse_world_after_failed_conversion w orderRef handle
      approved now txs' b ups' hcap htake]
    have hcap2 : captureOrder txs' orderRef approved' = Except.ok txs' :=
      captureOrder_after_success w.transactions txs' orderRef approved
        approved' hcap
    have htake2 : take ups' handle now' = Except.error StoreError.NotFound :=
      take_after_take w.uploads ups' handle now now' b htake
    unfold runPayPerUse
    simp only [hcap2, htake2]

/-- Witness for C7: a concrete unapproved order is refused with the
402-class NotPaid failure and the world is left unchanged. -/
theorem c7_failed_is_terminal_witness :
    runPayPerUse
        ⟨[⟨7, [1], 0, 100⟩], [⟨1, "ord-1", 20, "MXN", TxStatus.created⟩],
          none, []⟩ "ord-1" 7 false true 5
      = (OrchState.Failed FailReason.NotPaid,
         ⟨[⟨7, [1], 0, 100⟩], [⟨1, "ord-1", 20, "MXN", TxStatus.created⟩],
           none, []⟩) ∧
    failHttp FailReason.NotPaid = 402 :=
  c7_failed_is_terminal.1
    ⟨[⟨7, [1], 0, 100⟩], [⟨1, "ord-1", 20, "MXN", TxStatus.created⟩],
      none, []⟩ "ord-1" 7 true 5 rfl

/-! ## Upload validation (frontend Upload.jsx and Upload Store put) -/

/-- The 15MB frontend size guardrail of Upload.jsx. -/
def maxUploadBytes : Nat := 15 * 1024 * 1024

/-- The 10-page backend limit of the converter. -/
def maxPages : Nat := 10

/-- Outcome of the onFile handler of Upload.jsx. -/
inductive FileCheck where
  | accepted
  | notPdf
  | tooLarge
deriving DecidableEq, Repr

/-- The name.toLowerCase().endsWith check of Upload.jsx, over the
character list of the file name. -/
def endsWithPdf (name : List Char) : Bool :=
  List.isSuffixOf ".pdf".data (name.map Char.toLower)

/-- The onFile handler of ExcelConverter Upload.jsx: rejects a file
whose lower-cased name does not end in .pdf, then rejects a file whose
size exceeds 15 * 1024 * 1024 bytes, and otherwise accepts it. -/
def onFile (name : List Char) (size : Nat) : FileCheck :=
  if ¬ endsWithPdf name then FileCheck.notPdf
  else if size > maxUploadBytes then FileCheck.tooLarge
  else FileCheck.accepted

/-- Modelled from the spec: the Upload Store put contract — an upload
is rejected with UnsupportedFormat when the content type is not PDF,
when the page count exceeds 10 pages, or when the size exceeds 15MB
(backend upload endpoint absent from the sources). -/
def put (pages : Nat) (size : Nat) (isPdf : Bool) :
    Except StoreError Unit :=
  if ¬ isPdf then Except.error StoreError.UnsupportedFormat
  else if pages > maxPages then Except.error StoreError.UnsupportedFormat
  else if size > maxUploadBytes then
    Except.error StoreError.UnsupportedFormat
  else Except.ok ()

/-- Claim C6: an upload exactly at the configured limits (10 pages,
15MB) is accepted, while one unit over either limit, or an unsupported
content type, is rejected — both in the frontend onFile guardrail and
in the Upload Store put contract. -/
theorem c6_upload_limits :
    onFile "Estado.PDF".data maxUploadBytes = FileCheck.accepted ∧
    onFile "Estado.PDF".data (maxUploadBytes + 1) = FileCheck.tooLarge ∧
    (∀ size : Nat, onFile "estado.txt".data size = FileCheck.notPdf) ∧
    put maxPages maxUploadBytes true = Except.ok () ∧
    (∀ size : Nat, put (maxPages + 1) size true
        = Except.error StoreError.UnsupportedFormat) ∧
    (∀ pages : Nat, put pages (maxUploadBytes + 1) true
        = Except.error StoreError.UnsupportedFormat) ∧
    (∀ (pages size : Nat), put pages size false
        = Except.error StoreError.UnsupportedFormat) := by
  refine ⟨by decide, by decide, ?_, by rfl, ?_, ?_, ?_⟩
  · intro size
    have h : endsWithPdf "estado.txt".data = false := by decide
    simp [onFile, h]
  · intro size
    simp [put, maxPages]
  · intro pages
    by_cases hp : pages > maxPages
    · simp [put, hp]
    · simp [put, hp, maxUploadBytes]
  · intro pages size
    simp [put]

/-! ## IQ quiz (IQTest Quiz.jsx and Wizard.jsx) -/

/-- A quiz question as loaded from the backend: id, text and the
option strings rendered by the Wizard. -/
structure Question where
  id : Nat
  text : String
  options : List String
deriving DecidableEq, Repr

/-- One entry of the answers payload posted to the submit endpoint:
questionId, the chosen answer and the per-question time. -/
structure AnswerItem where
  questionId : Nat
  answer : String
  time_ms : Nat
deriving DecidableEq, Repr

/-- The component state of Quiz.jsx: currentStep, userAnswers, and the
payload posted by handleQuizCompletion once it fires. -/
structure QuizState where
  currentStep : Nat
  userAnswers : List AnswerItem
  submitted : Option (List AnswerItem)
deriving DecidableEq, Repr

def defaultQuestion : Question := ⟨0, "", []⟩

def defaultAnswer : AnswerItem := ⟨0, "", 0⟩

def initQuiz : QuizState := ⟨0, [], none⟩

/-- The handleAnswer handler of Quiz.jsx: append the answer for the
current question, then either advance to the next question or, after
the last one, fire handleQuizCompletion with the collected answers. -/
def handleAnswer (questions : List Question) (s : QuizState)
    (answer : String) (tms : Nat) : QuizState :=
  let q := questions.getD s.currentStep defaultQuestion
  let newAnswers := s.userAnswers ++ [⟨q.id, answer, tms⟩]
  if s.currentStep < questions.length - 1 then
    ⟨s.currentStep + 1, newAnswers, s.submitted⟩
  else
    ⟨s.currentStep, newAnswers, some newAnswers⟩

/-- A run of the quiz from a given state: one handleAnswer call per
answered question. -/
def runQuizFrom (questions : List Question) (s : QuizState) :
    List (String × Nat) → QuizState
  | [] => s
  | p :: ps => runQuizFrom questions (handleAnswer questions s p.1 p.2) ps

/-- A full run of the quiz from the initial state. -/
def runQuiz (questions : List Question) (inputs : List (String × Nat)) :
    QuizState :=
  runQuizFrom questions initQuiz inputs

/-- The payload handleAnswer builds for the questions from position n
on, one item per selection, in question order. -/
def expectedFrom (questions : List Question) :
    Nat → List (String × Nat) → List AnswerItem
  | _, [] => []
  | n, p :: ps =>
      ⟨(questions.getD n defaultQuestion).id, p.1, p.2⟩ ::
        expectedFrom questions (n + 1) ps

/-- The component state of Wizard.jsx: the currently selected option,
null until the user picks one. -/
structure WizardState where
  selectedOption : Option String
deriving DecidableEq, Repr

/-- The user interactions the Wizard renders: clicking the i-th
rendered option, or clicking the Siguiente button. -/
inductive WizardEvent where
  | selectIdx (i : Nat)
  | next
deriving DecidableEq, Repr

/-- The handleNext handler of Wizard.jsx: invokes onAnswer only when an
option is selected, and clears the selection. -/
def handleNext (s : WizardState) : Option String × WizardState :=
  match s.selectedOption with
  | some o => (some o, ⟨none⟩)
  | none => (none, s)

/-- One Wizard interaction: clicking option i runs handleOptionSelect
on the i-th rendered option (no such click exists past the rendered
list), clicking Siguiente runs handleNext. -/
def wizardStep (q : Question) (s : WizardState) (ev : WizardEvent) :
    WizardState × Option String :=
  match ev with
  | WizardEvent.selectIdx i =>
      match q.options.get? i with
      | some o => (⟨some o⟩, none)
      | none => (s, none)
  | WizardEvent.next =>
      let r := handleNext s
      (r.2, r.1)

/-- The answers the Wizard passes to onAnswer over a sequence of
interactions. -/
def wizardEmits (q : Question) : WizardState → List WizardEvent →
    List String
  | _, [] => []
  | s, ev :: evs =>
      let r := wizardStep q s ev
      match r.2 with
      | some o => o :: wizardEmits q r.1 evs
      | none => wizardEmits q r.1 evs

theorem wizardEmits_mem_options (q : Question) :
    ∀ (evs : List WizardEvent) (s : WizardState),
      (∀ o, s.selectedOption = some o → o ∈ q.options) →
      ∀ a ∈ wizardEmits q s evs, a ∈ q.options := by
  intro evs
  induction evs with
  | nil => intro s _ a ha; simp [wizardEmits] at ha
  | cons ev rest ih =>
      intro s hinv a ha
      cases ev with
      | selectIdx i =>
          cases hget : q.options.get? i with
          | some o =>
              simp only [wizardEmits, wizardStep, hget] at ha
              exact ih ⟨some o⟩
                (by intro o' ho'; injection ho' with h1; subst h1
                    exact List.get?_mem hget) a ha
          | none =>
              simp only [wizardEmits, wizardStep, hget] at ha
              exact ih s hinv a ha
      | next =>
          cases hsel : s.selectedOption with
          | some o =>
              simp only [wizardEmits, wizardStep, handleNext, hsel] at ha
              cases ha with
              | head => exact hinv _ hsel
              | tail _ hmem =>
                  exact ih ⟨none⟩ (by intro o' ho'; cases ho') a hmem
          | none =>
              simp only [wizardEmits, wizardStep, handleNext, hsel] at ha
              exact ih s hinv a ha

theorem expectedFrom_length (questions : List Question) :
    ∀ (inputs : List (String × Nat)) (n : Nat),
      (expectedFrom questions n inputs).length = inputs.length := by
  intro inputs
  induction inputs with
  | nil => intro n; rfl
  | cons p ps ih => intro n; simp [expectedFrom, ih]

theorem expectedFrom_getD (questions : List Question) :
    ∀ (inputs : List (String × Nat)) (n i : Nat), i < inputs.length →
      (expectedFrom questions n inputs).getD i defaultAnswer =
        ⟨(questions.getD (n + i) defaultQuestion).id,
         (inputs.getD i ("", 0)).1, (inputs.getD i ("", 0)).2⟩ := by
  intro inputs
  induction inputs with
  | nil => intro n i h; simp at h
  | cons p ps ih =>
      intro n i h
      cases i with
      | zero => simp [expectedFrom]
      | succ j =>
          have hj : j < ps.length := by simpa using h
          have := ih (n + 1) j hj
          simp only [expectedFrom, List.getD_cons_succ, this]
          have harith : n + 1 + j = n + (j + 1) := by omega
          rw [harith]

theorem runQuizFrom_prefixRun (questions : List Question) :
    ∀ (inputs : List (String × Nat)) (done : List AnswerItem) (n : Nat),
      n + inputs.length < questions.length →
      runQuizFrom questions ⟨n, done, none⟩ inputs =
        ⟨n + inputs.length, done ++ expectedFrom questions n inputs,
         none⟩ := by
  intro inputs
  induction inputs with
  | nil => intro done n h; simp [runQuizFrom, expectedFrom]
  | cons p ps ih =>
      intro done n h
      have hlt : n < questions.length - 1 := by
        simp only [List.length_cons] at h
        omega
      have hH : handleAnswer questions ⟨n, done, none⟩ p.1 p.2
          = ⟨n + 1, done ++ [⟨(questions.getD n defaultQuestion).id,
              p.1, p.2⟩], none⟩ := by
        simp [handleAnswer, hlt]
      have hstep : runQuizFrom questions ⟨n, done, none⟩ (p :: ps)
          = runQuizFrom questions
              (handleAnswer questions ⟨n, done, none⟩ p.1 p.2) ps := rfl
      rw [hstep, hH, ih _ (n + 1)
        (by simp only [List.length_cons] at h; omega)]
      simp only [QuizState.mk.injEq, expectedFrom, List.length_cons]
      refine ⟨by omega, by simp, by trivial⟩

theorem runQuizFrom_complete (questions : List Question) :
    ∀ (inputs : List (String × Nat)) (done : List AnswerItem) (n : Nat),
      n + inputs.length = questions.length →
      inputs ≠ [] →
      runQuizFrom questions ⟨n, done, none⟩ inputs =
        ⟨questions.length - 1,
         done ++ expectedFrom questions n inputs,
         some (done ++ expectedFrom questions n inputs)⟩ := by
  intro inputs
  induction inputs with
  | nil => intro done n _ hne; exact absurd rfl hne
  | cons p ps ih =>
      intro done n hlen _
      cases ps with
      | nil =>
          have hn : n = questions.length - 1 := by
            simp only [List.length_cons, List.length_nil] at hlen
            omega
          have hnot : ¬ n < questions.length - 1 := by omega
          simp only [runQuizFrom, handleAnswer, hnot, if_false]
          simp [expectedFrom, hn]
      | cons q qs =>
          have hlt : n < questions.length - 1 := by
            simp only [List.length_cons] at hlen
            omega
          have hH : handleAnswer questions ⟨n, done, none⟩ p.1 p.2
              = ⟨n + 1, done ++ [⟨(questions.getD n defaultQuestion).id,
                  p.1, p.2⟩], none⟩ := by
            simp [handleAnswer, hlt]
          have hstep : runQuizFrom questions ⟨n, done, none⟩
                (p :: q :: qs)
              = runQuizFrom questions
                  (handleAnswer questions ⟨n, done, none⟩ p.1 p.2)
                  (q :: qs) := rfl
          rw [hstep, hH, ih _ (n + 1)
            (by simp only [List.length_cons] at hlen ⊢; omega)
            (by simp)]
          simp [expectedFrom]

/-- Claim C8: a completed quiz run posts exactly one answer per loaded
question, in question order, each item carrying the id of its question
and the value the user selected; submission fires only once the last
question has been answered (never on a proper prefix of the run); and
the Wizard only ever hands onAnswer an option that is among the options
it rendered for the question. -/
theorem c8_quiz_payload :
    ∀ (questions : List Question) (inputs : List (String × Nat)),
      inputs.length = questions.length →
      0 < questions.length →
      ((runQuiz questions inputs).submitted
          = some (expectedFrom questions 0 inputs) ∧
       (expectedFrom questions 0 inputs).length = questions.length ∧
       (∀ i, i < questions.length →
          ((expectedFrom questions 0 inputs).getD i
              defaultAnswer).questionId
            = (questions.getD i defaultQuestion).id ∧
          ((expectedFrom questions 0 inputs).getD i defaultAnswer).answer
            = (inputs.getD i ("", 0)).1) ∧
       (∀ k, k < questions.length →
          (runQuiz questions (inputs.take k)).submitted = none)) ∧
      (∀ (q : Question) (evs : List WizardEvent),
         ∀ a ∈ wizardEmits q ⟨none⟩ evs, a ∈ q.options) := by
  intro questions inputs hlen hpos
  refine ⟨⟨?_, ?_, ?_, ?_⟩, ?_⟩
  · have hne : inputs ≠ [] := by
      intro h
      rw [h] at hlen
      simp at hlen
      omega
    have := runQuizFrom_complete questions inputs [] 0
      (by simpa using hlen) hne
    unfold runQuiz initQuiz
    rw [this]
    simp
  · rw [expectedFrom_length questions inputs 0, hlen]
  · intro i hi
    have hi' : i < inputs.length := by omega
    have := expectedFrom_getD questions inputs 0 i hi'
    rw [this]
    exact ⟨by simp, rfl⟩
  · intro k hk
    have htk : (inputs.take k).length = k := by
      rw [List.length_take]
      omega
    have := runQuizFrom_prefixRun questions (inputs.take k) [] 0
      (by rw [htk]; simpa using hk)
    unfold runQuiz initQuiz
    rw [this]
  · intro q evs a ha
    exact wizardEmits_mem_options q evs ⟨none⟩
      (by intro o ho; cases ho) a ha

/-- Witness for C8: a two-question run posts both answers, in order,
with the matching question ids. -/
theorem c8_quiz_payload_witness :
    (runQuiz [⟨1, "q1", ["a", "b"]⟩, ⟨2, "q2", ["c", "d"]⟩]
        [("a", 10), ("d", 20)]).submitted
      = some (expectedFrom [⟨1, "q1", ["a", "b"]⟩, ⟨2, "q2", ["c", "d"]⟩]
          0 [("a", 10), ("d", 20)]) :=
  ((c8_quiz_payload [⟨1, "q1", ["a", "b"]⟩, ⟨2, "q2", ["c", "d"]⟩]
    [("a", 10), ("d", 20)] (by decide) (by decide)).1).1

/-! ## Subscription return page (ExcelConverter PayPalReturn.jsx) -/

/-- The URL parameters PayPalReturn.jsx reads on mount. -/
structure ReturnParams where
  subscription_id : Option String
  token : Option String
  plan_type : Option String
deriving DecidableEq, Repr

/-- The localStorage slot SubscriptionPlans.jsx writes before
redirecting to PayPal and PayPalReturn.jsx cleans up. -/
structure BrowserStorage where
  pending_plan_type : Option String
deriving DecidableEq, Repr

/-- What the return page ends up showing. -/
inductive ReturnOutcome where
  | errorNoSubscription
  | errorNoPlan
  | approveFailed
  | approved
deriving DecidableEq, Repr

/-- Result of one run of handlePayPalReturn: the outcome shown, the
approve request body if one was sent, and the localStorage
afterwards. -/
structure ReturnResult where
  outcome : ReturnOutcome
  requested : Option (String × String)
  storage : BrowserStorage
deriving DecidableEq, Repr

/-- The subscription reference PayPalReturn.jsx resolves on mount:
the subscription_id URL parameter, falling back to the token
parameter. -/
def resolvedSubscriptionId (params : ReturnParams) : Option String :=
  params.subscription_id.orElse fun _ => params.token

/-- The plan PayPalReturn.jsx resolves on mount: the plan_type URL
parameter, falling back to the saved pending_plan_type. -/
def resolvedPlanType (params : ReturnParams) (storage : BrowserStorage) :
    Option String :=
  params.plan_type.orElse fun _ => storage.pending_plan_type

/-- The handlePayPalReturn handler of PayPalReturn.jsx: bail out with
an error before any request when the subscription reference or the
plan is missing; otherwise POST the approve request, and remove
pending_plan_type only when the request succeeded. -/
def handlePayPalReturn (params : ReturnParams) (storage : BrowserStorage)
    (serverOk : Bool) : ReturnResult :=
  match resolvedSubscriptionId params with
  | none => ⟨ReturnOutcome.errorNoSubscription, none, storage⟩
  | some sid =>
      match resolvedPlanType params storage with
      | none => ⟨ReturnOutcome.errorNoPlan, none, storage⟩
      | some pt =>
          if serverOk then
            ⟨ReturnOutcome.approved, some (sid, pt), ⟨none⟩⟩
          else ⟨ReturnOutcome.approveFailed, some (sid, pt), storage⟩

/-- Claim C9: the approve request is issued exactly when both a
subscription reference and a plan type resolve; when the reference is
missing the page reports an error, sends nothing, and leaves
localStorage untouched; a failed approval also leaves localStorage
untouched; and pending_plan_type is removed only on a successful
approval. -/
theorem c9_approve_guarded :
    ∀ (params : ReturnParams) (storage : BrowserStorage)
      (serverOk : Bool),
      ((handlePayPalReturn params storage serverOk).requested.isSome ↔
        (resolvedSubscriptionId params).isSome ∧
        (resolvedPlanType params storage).isSome) ∧
      (resolvedSubscriptionId params = none →
        handlePayPalReturn params storage serverOk =
          ⟨ReturnOutcome.errorNoSubscription, none, storage⟩) ∧
      (serverOk = false →
        (handlePayPalReturn params storage serverOk).storage = storage) ∧
      ((handlePayPalReturn params storage
          serverOk).storage.pending_plan_type = none →
        storage.pending_plan_type = none ∨
        (serverOk = true ∧
          (handlePayPalReturn params storage serverOk).outcome
            = ReturnOutcome.approved)) := by
  intro params storage serverOk
  refine ⟨?_, ?_, ?_, ?_⟩
  · cases hsub : resolvedSubscriptionId params with
    | none => simp [handlePayPalReturn, hsub]
    | some sid =>
        cases hplan : resolvedPlanType params storage with
        | none => simp [handlePayPalReturn, hsub, hplan]
        | some pt =>
            cases serverOk <;> simp [handlePayPalReturn, hsub, hplan]
  · intro h
    simp [handlePayPalReturn, h]
  · intro h
    subst h
    cases hsub : resolvedSubscriptionId params with
    | none => simp [handlePayPalReturn, hsub]
    | some sid =>
        cases hplan : resolvedPlanType params storage with
        | none => simp [handlePayPalReturn, hsub, hplan]
        | some pt => simp [handlePayPalReturn, hsub, hplan]
  · intro h
    cases hsub : resolvedSubscriptionId params with
    | none =>
        simp only [handlePayPalReturn, hsub] at h
        exact Or.inl h
    | some sid =>
        cases hplan : resolvedPlanType params storage with
        | none =>
            simp only [handlePayPalReturn, hsub, hplan] at h
            exact Or.inl h
        | some pt =>
            cases hok : serverOk with
            | true =>
                exact Or.inr ⟨rfl,
                  by simp [handlePayPalReturn, hsub, hplan]⟩
            | false =>
                subst hok
                simp only [handlePayPalReturn, hsub, hplan,
                  if_false] at h
                exact Or.inl h

/-- Witness for C9: with no subscription reference in the URL the page
errors, sends no request, and keeps the pending plan. -/
theorem c9_approve_guarded_witness :
    handlePayPalReturn ⟨none, none, some "basic"⟩ ⟨some "basic"⟩ true =
      ⟨ReturnOutcome.errorNoSubscription, none, ⟨some "basic"⟩⟩ :=
  (c9_approve_guarded ⟨none, none, some "basic"⟩ ⟨some "basic"⟩
    true).2.1 rfl

/-! ## Auth context (ExcelConverter AuthContext.jsx) -/

/-- The AuthProvider state of AuthContext.jsx together with the
localStorage keys it manages (pending_plan_type belongs to the
subscription flow and is not touched by auth). -/
structure AuthState where
  token : Option String
  user : Option String
  storageAuthToken : Option String
  storageUser : Option String
  storagePendingPlanType : Option String
deriving DecidableEq, Repr

/-- The login function of AuthContext.jsx: set token and user in state
and persist both to localStorage. -/
def login (s : AuthState) (token : String) (userData : String) :
    AuthState :=
  { s with token := some token, user := some userData,
           storageAuthToken := some token,
           storageUser := some userData }

/-- The logout function of AuthContext.jsx: clear token and user from
state and remove both localStorage keys. -/
def logout (s : AuthState) : AuthState :=
  { s with token := none, user := none,
           storageAuthToken := none, storageUser := none }

/-- The getAuthHeader function of AuthContext.jsx: a Bearer header when
a token is set, an empty header object otherwise. -/
def getAuthHeader (s : AuthState) : Option String :=
  match s.token with
  | some t => some ("Bearer " ++ t)
  | none => none

/-- Claim C10: getAuthHeader returns the Bearer header of the token
exactly when one is set and nothing otherwise; logout clears token and
user from both state and localStorage, is idempotent, and after logout
no request carries an Authorization header. -/
theorem c10_auth_header_logout :
    ∀ (s : AuthState),
      (∀ t, s.token = some t → getAuthHeader s = some ("Bearer " ++ t)) ∧
      (s.token = none → getAuthHeader s = none) ∧
      (logout s).token = none ∧ (logout s).user = none ∧
      (logout s).storageAuthToken = none ∧
      (logout s).storageUser = none ∧
      logout (logout s) = logout s ∧
      getAuthHeader (logout s) = none := by
  intro s
  refine ⟨?_, ?_, rfl, rfl, rfl, rfl, rfl, rfl⟩
  · intro t ht
    simp [getAuthHeader, ht]
  · intro ht
    simp [getAuthHeader, ht]

/-- Witness for C10: after a login followed by a logout, the header is
gone and both storage keys are cleared. -/
theorem c10_auth_header_logout_witness :
    getAuthHeader (login ⟨none, none, none, none, none⟩ "tok" "alice")
        = some ("Bearer " ++ "tok") ∧
    getAuthHeader (logout (login ⟨none, none, none, none, none⟩ "tok"
        "alice")) = none :=
  ⟨(c10_auth_header_logout
      (login ⟨none, none, none, none, none⟩ "tok" "alice")).1 "tok" rfl,
   (c10_auth_header_logout
      (login ⟨none, none, none, none, none⟩ "tok" "alice")).2.2.2.2.2.2.2⟩
